import Mathlib

/-!
Shallow embedding of `src/daemon/jsonrpc/api.rs` of revaultd: the JSON-RPC
bridge between command handlers (`stop`, `getinfo`, `listvaults`) and the
single worker thread.  Channels are modelled by identity (a fresh `Nat` id per
allocation), the worker side by an oracle `WorkerEnv`, and each handler is a
pure function from the oracle and the handler-visible state to an outcome,
the updated state, and the ordered trace of channel events it performed.
-/

namespace Revaultd

/-- An IEEE-754 double, represented opaquely by its bit pattern.  The bridge
never computes with the sync-progress value (`f64` in the source); it only
copies it from the worker reply into the JSON result, so the bit pattern is an
exact representation for this development. -/
structure F64 where
  bits : Nat
deriving DecidableEq, Repr

/-- JSON values, as built by the `json!` macro in the source.  Object fields
are ordered as written in the source. -/
inductive Json where
  | str (s : String)
  | num (n : Nat)
  | f64 (x : F64)
  | arr (xs : List Json)
  | obj (fields : List (String × Json))

/-- Modelled from the spec: the process-wide VERSION constant string supplied
externally (`common::VERSION` in the source, not under src/).  Its concrete
value is irrelevant to every claim; only the fact that `getinfo` returns this
constant matters. -/
def VERSION : String := "0.0.2"

/-- Modelled from the spec: the closed, case-sensitive enumeration of vault
lifecycle states (`crate::revaultd::VaultStatus`, not under src/).  The spec
names the states "funded" and "spent" in its scenarios; the claims only need
that recognition is exact string match against a closed set. -/
inductive VaultStatus where
  | funded
  | spent
deriving DecidableEq, Repr

/-- Modelled from the spec: `VaultStatus::from_str`, exact case-sensitive
match of one of the recognized lifecycle-state names. -/
def VaultStatus.from_str : String → Option VaultStatus
  | "funded" => some VaultStatus.funded
  | "spent" => some VaultStatus.spent
  | _ => none

/-- A transaction id: 32 bytes. -/
abbrev Txid := List Nat

/-- Modelled from the spec: the decode-failure reasons of the external hex
decoder (`revault_tx::bitcoin::hashes::hex::Error`): a character that is not a
hex digit, an odd-length string, or a wrong even length for a 32-byte hash. -/
inductive FromHexError where
  | invalidChar (c : Char)
  | oddLengthString (len : Nat)
  | invalidLength (expected got : Nat)
deriving DecidableEq, Repr

/-- Human-readable rendering of a decode failure (`e.to_string()` in the
source). -/
def FromHexError.toString : FromHexError → String
  | FromHexError.invalidChar c => "invalid hex character " ++ Nat.repr c.toNat
  | FromHexError.oddLengthString n => "odd hex string length " ++ Nat.repr n
  | FromHexError.invalidLength expected got =>
      "bad hex string length " ++ Nat.repr got ++ " (expected " ++ Nat.repr expected ++ ")"

/-- Value of a hex digit, accepting both cases. -/
def hexDigitVal (c : Char) : Option Nat :=
  if c.toNat ≥ 48 ∧ c.toNat ≤ 57 then some (c.toNat - 48)
  else if c.toNat ≥ 97 ∧ c.toNat ≤ 102 then some (c.toNat - 87)
  else if c.toNat ≥ 65 ∧ c.toNat ≤ 70 then some (c.toNat - 55)
  else none

/-- Decode hex digit pairs into bytes left to right, reporting the first
character that is not a hex digit. -/
def decodeHexPairs : List Char → Except Char (List Nat)
  | [] => Except.ok []
  | [c] => Except.error c
  | c1 :: c2 :: rest =>
    match hexDigitVal c1 with
    | none => Except.error c1
    | some h =>
      match hexDigitVal c2 with
      | none => Except.error c2
      | some l =>
        match decodeHexPairs rest with
        | Except.error c => Except.error c
        | Except.ok bs => Except.ok ((16 * h + l) :: bs)

/-- Modelled from the spec: `Txid::from_hex` (external crate): the string must
be a fixed-length (64-character) hexadecimal encoding of a 32-byte hash.
Bitcoin displays hashes byte-reversed, hence the final `reverse`. -/
def Txid.from_hex (s : String) : Except FromHexError Txid :=
  let n := s.length
  if n % 2 ≠ 0 then Except.error (FromHexError.oddLengthString n)
  else if n ≠ 64 then Except.error (FromHexError.invalidLength 64 n)
  else
    match decodeHexPairs s.data with
    | Except.error c => Except.error (FromHexError.invalidChar c)
    | Except.ok bs => Except.ok bs.reverse

/-- A JSON-RPC error as returned to the caller (`jsonrpc_core::Error`). -/
structure JsonRpcError where
  code : Int
  message : String
deriving DecidableEq, Repr

/-- `JsonRpcError::invalid_params`: code -32602 with the given message. -/
def invalidParams (msg : String) : JsonRpcError :=
  JsonRpcError.mk (-32602) msg

/-- The single-quote character, used by the source error messages to quote the
offending value. -/
def quoteChar : Char := Char.ofNat 39

/-- Wrap a string in single quotes, as the source format strings do. -/
def quoted (s : String) : String :=
  String.mk (quoteChar :: (s.data ++ [quoteChar]))

/-- The inbound message variants (`RpcMessageIn` in `threadmessages`): reply
channels are modelled by their ids. -/
inductive RpcMessageIn where
  | Shutdown
  | GetInfo (responseTx : Nat)
  | ListVaults (filters : Option VaultStatus × Option (List Txid)) (responseTx : Nat)
deriving DecidableEq

/-- The worker inbound envelope type (`ThreadMessageIn`). -/
inductive ThreadMessageIn where
  | Rpc (m : RpcMessageIn)
deriving DecidableEq

/-- Channel-level events a handler performs, in order: allocating a fresh
rendezvous channel, enqueuing an envelope on the worker queue (recorded only
when the send succeeds), and receiving on a reply channel. -/
inductive Event where
  | setFlag
  | allocChan (c : Nat)
  | sendEnv (m : ThreadMessageIn)
  | recvChan (c : Nat)
deriving DecidableEq

/-- Outcome of a handler invocation: a normal `Ok` return, a normal `Err`
return, `process::exit(code)`, or an `unwrap` panic. -/
inductive Outcome (α : Type) where
  | ok (a : α)
  | err (e : JsonRpcError)
  | exited (code : Nat)
  | panicked
deriving DecidableEq

/-- The worker-side oracle: whether the inbound queue is still connected
(`send` succeeds), and what, if anything, the worker delivers on the reply
channel of each request kind (`none` models the reply channel being dropped
without a value). -/
structure WorkerEnv where
  sendOk : Bool
  getInfoReply : Option (String × Nat × F64)
  listVaultsReply : Option Json

/-- The handler-visible state (`JsonRpcMetaData`): the shutdown flag, plus a
fresh-channel counter modelling `mpsc::sync_channel(0)` allocation (each call
takes the current counter as its channel id and increments it, so distinct
allocations always yield distinct channels).  The queue sender `tx` is
modelled by `WorkerEnv.sendOk`. -/
structure JsonRpcMetaData where
  shutdownFlag : Bool
  nextChan : Nat
deriving DecidableEq, Repr

/-- `JsonRpcMetaData::is_shutdown`: a non-blocking read of the flag. -/
def JsonRpcMetaData.is_shutdown (m : JsonRpcMetaData) : Bool :=
  m.shutdownFlag

/-- `JsonRpcMetaData::shutdown`: store `true` into the flag. -/
def JsonRpcMetaData.shutdown (m : JsonRpcMetaData) : JsonRpcMetaData :=
  JsonRpcMetaData.mk true m.nextChan

/-- `RpcImpl::stop`: set the shutdown flag, then `send(Shutdown).unwrap()`.
A failed send (disconnected queue) makes `unwrap` panic. -/
def RpcImpl.stop (env : WorkerEnv) (meta : JsonRpcMetaData) :
    Outcome Unit × JsonRpcMetaData × List Event :=
  let meta1 := JsonRpcMetaData.shutdown meta
  if env.sendOk then
    (Outcome.ok (), meta1, [Event.setFlag, Event.sendEnv (ThreadMessageIn.Rpc RpcMessageIn.Shutdown)])
  else
    (Outcome.panicked, meta1, [Event.setFlag])

/-- `RpcImpl::getinfo`: allocate a fresh zero-capacity channel, send a
`GetInfo` envelope carrying its send half (on failure `process::exit(1)`),
receive the worker triple (on a dropped channel `process::exit(1)`), and wrap
it with the static VERSION into the JSON result. -/
def RpcImpl.getinfo (env : WorkerEnv) (meta : JsonRpcMetaData) :
    Outcome Json × JsonRpcMetaData × List Event :=
  let c := meta.nextChan
  let meta1 := JsonRpcMetaData.mk meta.shutdownFlag (c + 1)
  if env.sendOk then
    let evs := [Event.allocChan c, Event.sendEnv (ThreadMessageIn.Rpc (RpcMessageIn.GetInfo c)),
                Event.recvChan c]
    match env.getInfoReply with
    | some (net, height, progress) =>
      (Outcome.ok (Json.obj [("version", Json.str VERSION), ("network", Json.str net),
                             ("blockheight", Json.num height), ("sync", Json.f64 progress)]),
       meta1, evs)
    | none => (Outcome.exited 1, meta1, evs)
  else
    (Outcome.exited 1, meta1, [Event.allocChan c])

/-- Validation of the optional status filter: exact match against the
recognized lifecycle-state names, otherwise an invalid-params error naming the
offending value (the `VaultStatus::from_str ... map_err` block of
`listvaults`). -/
def parseStatus : Option String → Except JsonRpcError (Option VaultStatus)
  | none => Except.ok none
  | some st =>
    match VaultStatus.from_str st with
    | some v => Except.ok (some v)
    | none => Except.error (invalidParams (quoted st ++ " is not a valid vault status"))

/-- Decoding of a txid list, short-circuiting at the first element that fails
to decode, with an invalid-params error naming the offending string and the
decode-failure reason (the `map ... collect::<Result<Vec<Txid>>>` block of
`listvaults`). -/
def decodeTxidList : List String → Except JsonRpcError (List Txid)
  | [] => Except.ok []
  | t :: ts =>
    match Txid.from_hex t with
    | Except.error e =>
      Except.error (invalidParams (quoted t ++ " is not a valid txid ("
                                   ++ FromHexError.toString e ++ ")"))
    | Except.ok txid =>
      match decodeTxidList ts with
      | Except.error e => Except.error e
      | Except.ok rest => Except.ok (txid :: rest)

/-- Decoding of the optional txid filter. -/
def decodeOptTxids : Option (List String) → Except JsonRpcError (Option (List Txid))
  | none => Except.ok none
  | some ts =>
    match decodeTxidList ts with
    | Except.error e => Except.error e
    | Except.ok txs => Except.ok (some txs)

/-- `RpcImpl::listvaults`: validate the status filter, then decode the txid
filter (each early `?` returns the error with nothing sent and no channel
created), then allocate a fresh zero-capacity channel, send a `ListVaults`
envelope (on failure `process::exit(1)`), receive the worker collection (on a
dropped channel `process::exit(1)`) and wrap it as the result object. -/
def RpcImpl.listvaults (env : WorkerEnv) (meta : JsonRpcMetaData)
    (status : Option String) (txids : Option (List String)) :
    Outcome Json × JsonRpcMetaData × List Event :=
  match parseStatus status with
  | Except.error e => (Outcome.err e, meta, [])
  | Except.ok stv =>
    match decodeOptTxids txids with
    | Except.error e => (Outcome.err e, meta, [])
    | Except.ok txv =>
      let c := meta.nextChan
      let meta1 := JsonRpcMetaData.mk meta.shutdownFlag (c + 1)
      if env.sendOk then
        let evs := [Event.allocChan c,
                    Event.sendEnv (ThreadMessageIn.Rpc (RpcMessageIn.ListVaults (stv, txv) c)),
                    Event.recvChan c]
        match env.listVaultsReply with
        | some vaults => (Outcome.ok (Json.obj [("vaults", vaults)]), meta1, evs)
        | none => (Outcome.exited 1, meta1, evs)
      else
        (Outcome.exited 1, meta1, [Event.allocChan c])

/-- The first element of a txid list that fails to decode, with its failure
reason (the one the short-circuiting `collect` reports). -/
def firstTxidFailure : List String → Option (String × FromHexError)
  | [] => none
  | t :: ts =>
    match Txid.from_hex t with
    | Except.error e => some (t, e)
    | Except.ok _ => firstTxidFailure ts

/-- The short-circuiting `collect` reports exactly the first decode failure,
rendered with the offending string and the failure reason. -/
theorem decodeTxidList_eq_of_firstFailure (ts : List String) (t : String) (e : FromHexError)
    (h : firstTxidFailure ts = some (t, e)) :
    decodeTxidList ts
      = Except.error (invalidParams (quoted t ++ " is not a valid txid ("
                                     ++ FromHexError.toString e ++ ")")) := by
  induction ts with
  | nil => simp [firstTxidFailure] at h
  | cons hd tl ih =>
    cases hh : Txid.from_hex hd with
    | error e0 =>
      simp [firstTxidFailure, hh] at h
      obtain ⟨rfl, rfl⟩ := h
      simp [decodeTxidList, hh]
    | ok v =>
      simp [firstTxidFailure, hh] at h
      simp [decodeTxidList, hh, ih h]

/-- Claim C1: for every call to `getinfo`, and to `listvaults` with valid
filters, if the enqueue fails or the reply channel is dropped without a value,
the handler never returns a normal `Err`: the outcome is process termination
with exit code 1 (fail-fast). -/
theorem c1_worker_unreachable_is_fatal (env : WorkerEnv) (meta : JsonRpcMetaData) :
    ((env.sendOk = false ∨ env.getInfoReply = none) →
      (RpcImpl.getinfo env meta).1 = Outcome.exited 1) ∧
    (∀ (status : Option String) (txids : Option (List String))
        (stv : Option VaultStatus) (txv : Option (List Txid)),
      parseStatus status = Except.ok stv →
      decodeOptTxids txids = Except.ok txv →
      (env.sendOk = false ∨ env.listVaultsReply = none) →
      (RpcImpl.listvaults env meta status txids).1 = Outcome.exited 1) := by
  constructor
  · intro h
    rcases h with h | h
    · simp [RpcImpl.getinfo, h]
    · cases hs : env.sendOk <;> simp [RpcImpl.getinfo, hs, h]
  · intro status txids stv txv hst htx h
    rcases h with h | h
    · simp [RpcImpl.listvaults, hst, htx, h]
    · cases hs : env.sendOk <;> simp [RpcImpl.listvaults, hst, htx, hs, h]

/-- Witness for C1 at concrete inputs: a disconnected queue for `getinfo`, and
a dropped reply channel for a `listvaults` call with no filters. -/
theorem c1_witness :
    (RpcImpl.getinfo (WorkerEnv.mk false none none) (JsonRpcMetaData.mk false 0)).1
      = Outcome.exited 1
    ∧ (RpcImpl.listvaults (WorkerEnv.mk true none none) (JsonRpcMetaData.mk false 0)
        none none).1 = Outcome.exited 1 := by
  constructor
  · exact (c1_worker_unreachable_is_fatal (WorkerEnv.mk false none none)
      (JsonRpcMetaData.mk false 0)).1 (Or.inl rfl)
  · exact (c1_worker_unreachable_is_fatal (WorkerEnv.mk true none none)
      (JsonRpcMetaData.mk false 0)).2 none none none none rfl rfl (Or.inr rfl)

/-- Claim C2: `stop` first sets the shutdown flag and only afterwards sends
the `Shutdown` envelope (the trace begins with the flag store, followed by the
send exactly when the queue is connected); the envelope sent is exactly the
nullary `Shutdown` variant (no arguments, no reply channel), and no channel is
allocated or received on, so `stop` never waits for a reply. -/
theorem c2_stop_sets_flag_then_sends_shutdown (env : WorkerEnv) (meta : JsonRpcMetaData) :
    (RpcImpl.stop env meta).2.2
      = Event.setFlag ::
        (if env.sendOk then [Event.sendEnv (ThreadMessageIn.Rpc RpcMessageIn.Shutdown)] else [])
    ∧ (RpcImpl.stop env meta).2.1.shutdownFlag = true := by
  cases hs : env.sendOk <;> simp [RpcImpl.stop, JsonRpcMetaData.shutdown, hs]

/-- Counterexample to C3: with the worker inbound queue already disconnected,
`stop` does not return successfully — the `unwrap` on the failed send panics,
so its error/panic branch is reachable. -/
theorem c3_counterexample :
    (RpcImpl.stop (WorkerEnv.mk false none none) (JsonRpcMetaData.mk false 0)).1
      = Outcome.panicked
    ∧ (RpcImpl.stop (WorkerEnv.mk false none none) (JsonRpcMetaData.mk false 0)).1
      ≠ Outcome.ok () := by
  exact ⟨rfl, by decide⟩

/-- Amended C3: `stop` never returns an `Err`; it returns `Ok(())` exactly
when the send on the worker inbound queue succeeds, and panics (rather than
returning an error) when the queue is disconnected. -/
theorem c3_amended_stop_result (env : WorkerEnv) (meta : JsonRpcMetaData) :
    (RpcImpl.stop env meta).1
      = (if env.sendOk then Outcome.ok () else Outcome.panicked) := by
  cases hs : env.sendOk <;> simp [RpcImpl.stop, hs]

/-- Claim C4: for every string the status parser does not recognize,
`listvaults` returns an invalid-parameter error whose message quotes the
offending value, and its trace is empty — no envelope is enqueued and no
channel is created. -/
theorem c4_invalid_status_rejected (env : WorkerEnv) (meta : JsonRpcMetaData)
    (st : String) (txids : Option (List String))
    (h : VaultStatus.from_str st = none) :
    (RpcImpl.listvaults env meta (some st) txids).1
      = Outcome.err (invalidParams (quoted st ++ " is not a valid vault status"))
    ∧ (RpcImpl.listvaults env meta (some st) txids).2.2 = [] := by
  simp [RpcImpl.listvaults, parseStatus, h]

/-- Witness for C4 at the spec's Scenario C input "bogus". -/
theorem c4_witness :
    VaultStatus.from_str "bogus" = none
    ∧ (RpcImpl.listvaults (WorkerEnv.mk true none none) (JsonRpcMetaData.mk false 0)
        (some "bogus") none).1
      = Outcome.err (invalidParams (quoted "bogus" ++ " is not a valid vault status")) := by
  exact ⟨rfl, (c4_invalid_status_rejected (WorkerEnv.mk true none none)
    (JsonRpcMetaData.mk false 0) "bogus" none rfl).1⟩

/-- Claim C5: when the status filter validates and some element of the txid
list fails to decode, the whole call fails with an invalid-parameter error
quoting the (first) offending string together with its decode-failure reason,
and the trace is empty — nothing is sent to the worker (all-or-nothing). -/
theorem c5_invalid_txid_rejected (env : WorkerEnv) (meta : JsonRpcMetaData)
    (status : Option String) (stv : Option VaultStatus)
    (hst : parseStatus status = Except.ok stv)
    (ts : List String) (t : String) (e : FromHexError)
    (h : firstTxidFailure ts = some (t, e)) :
    (RpcImpl.listvaults env meta status (some ts)).1
      = Outcome.err (invalidParams (quoted t ++ " is not a valid txid ("
                                    ++ FromHexError.toString e ++ ")"))
    ∧ (RpcImpl.listvaults env meta status (some ts)).2.2 = [] := by
  have hd := decodeTxidList_eq_of_firstFailure ts t e h
  simp [RpcImpl.listvaults, hst, decodeOptTxids, hd]

/-- Witness for C5 at the spec's Scenario D input ["zz"] (wrong length for a
32-byte hash). -/
theorem c5_witness :
    firstTxidFailure ["zz"] = some ("zz", FromHexError.invalidLength 64 2)
    ∧ (RpcImpl.listvaults (WorkerEnv.mk true none none) (JsonRpcMetaData.mk false 0)
        none (some ["zz"])).1
      = Outcome.err (invalidParams (quoted "zz" ++ " is not a valid txid ("
          ++ FromHexError.toString (FromHexError.invalidLength 64 2) ++ ")")) := by
  have hf : firstTxidFailure ["zz"] = some ("zz", FromHexError.invalidLength 64 2) := rfl
  exact ⟨hf, (c5_invalid_txid_rejected (WorkerEnv.mk true none none)
    (JsonRpcMetaData.mk false 0) none none rfl ["zz"] "zz"
    (FromHexError.invalidLength 64 2) hf).1⟩

/-- Claim C6: for every worker-delivered triple, `getinfo` returns an object
with exactly the four fields version, network, blockheight, sync, where
version is the static VERSION constant and the other three are the
worker-supplied values unchanged. -/
theorem c6_getinfo_result (env : WorkerEnv) (meta : JsonRpcMetaData)
    (net : String) (height : Nat) (progress : F64)
    (hs : env.sendOk = true) (hr : env.getInfoReply = some (net, height, progress)) :
    (RpcImpl.getinfo env meta).1
      = Outcome.ok (Json.obj [("version", Json.str VERSION), ("network", Json.str net),
                              ("blockheight", Json.num height), ("sync", Json.f64 progress)]) := by
  simp [RpcImpl.getinfo, hs, hr]

/-- Witness for C6 at the spec's Scenario A worker state (network "testnet",
height 100, sync 1.0 — the f64 bit pattern of 1.0). -/
theorem c6_witness :
    (RpcImpl.getinfo
      (WorkerEnv.mk true (some ("testnet", 100, F64.mk 4607182418800017408)) none)
      (JsonRpcMetaData.mk false 0)).1
      = Outcome.ok (Json.obj [("version", Json.str VERSION),
                              ("network", Json.str "testnet"),
                              ("blockheight", Json.num 100),
                              ("sync", Json.f64 (F64.mk 4607182418800017408))]) := by
  exact c6_getinfo_result
    (WorkerEnv.mk true (some ("testnet", 100, F64.mk 4607182418800017408)) none)
    (JsonRpcMetaData.mk false 0) "testnet" 100 (F64.mk 4607182418800017408) rfl rfl

/-- Claim C7: for valid filters with a connected queue, each handler performs
exactly one channel allocation, one envelope send and one receive, in that
order; the received channel is the one allocated inside the call (the current
counter value), and the counter strictly increases, so no other call can ever
allocate or use the same channel. -/
theorem c7_one_send_one_recv_fresh_channel (env : WorkerEnv) (meta : JsonRpcMetaData)
    (status : Option String) (txids : Option (List String))
    (stv : Option VaultStatus) (txv : Option (List Txid))
    (hst : parseStatus status = Except.ok stv)
    (htx : decodeOptTxids txids = Except.ok txv)
    (hs : env.sendOk = true) :
    ((RpcImpl.getinfo env meta).2.2
        = [Event.allocChan meta.nextChan,
           Event.sendEnv (ThreadMessageIn.Rpc (RpcMessageIn.GetInfo meta.nextChan)),
           Event.recvChan meta.nextChan]
      ∧ (RpcImpl.getinfo env meta).2.1.nextChan = meta.nextChan + 1)
    ∧ ((RpcImpl.listvaults env meta status txids).2.2
        = [Event.allocChan meta.nextChan,
           Event.sendEnv (ThreadMessageIn.Rpc (RpcMessageIn.ListVaults (stv, txv) meta.nextChan)),
           Event.recvChan meta.nextChan]
      ∧ (RpcImpl.listvaults env meta status txids).2.1.nextChan = meta.nextChan + 1) := by
  constructor
  · cases hr : env.getInfoReply with
    | none => simp [RpcImpl.getinfo, hs, hr]
    | some v =>
      obtain ⟨net, height, p⟩ := v
      simp [RpcImpl.getinfo, hs, hr]
  · cases hr : env.listVaultsReply <;> simp [RpcImpl.listvaults, hst, htx, hs, hr]

/-- Witness for C7: a no-filter `listvaults` and a `getinfo` from counter 5
both use channel 5 and advance the counter to 6. -/
theorem c7_witness :
    (RpcImpl.getinfo (WorkerEnv.mk true none none) (JsonRpcMetaData.mk false 5)).2.2
      = [Event.allocChan 5, Event.sendEnv (ThreadMessageIn.Rpc (RpcMessageIn.GetInfo 5)),
         Event.recvChan 5]
    ∧ (RpcImpl.listvaults (WorkerEnv.mk true none none) (JsonRpcMetaData.mk false 5)
        none none).2.1.nextChan = 6 := by
  exact ⟨(c7_one_send_one_recv_fresh_channel (WorkerEnv.mk true none none)
      (JsonRpcMetaData.mk false 5) none none none none rfl rfl rfl).1.1,
    (c7_one_send_one_recv_fresh_channel (WorkerEnv.mk true none none)
      (JsonRpcMetaData.mk false 5) none none none none rfl rfl rfl).2.2⟩

/-- Claim C8: the shutdown flag is monotonic — `shutdown`/`stop` store `true`,
`getinfo` and `listvaults` leave the flag exactly as it was, `is_shutdown`
only reads it, and `shutdown` is idempotent, so once the flag is true it
remains true under every operation of the bridge. -/
theorem c8_shutdown_flag_monotone (env : WorkerEnv) (meta : JsonRpcMetaData)
    (status : Option String) (txids : Option (List String)) :
    (JsonRpcMetaData.shutdown meta).shutdownFlag = true
    ∧ JsonRpcMetaData.shutdown (JsonRpcMetaData.shutdown meta) = JsonRpcMetaData.shutdown meta
    ∧ (RpcImpl.stop env meta).2.1.shutdownFlag = true
    ∧ (RpcImpl.getinfo env meta).2.1.shutdownFlag = meta.shutdownFlag
    ∧ (RpcImpl.listvaults env meta status txids).2.1.shutdownFlag = meta.shutdownFlag
    ∧ JsonRpcMetaData.is_shutdown meta = meta.shutdownFlag := by
  refine ⟨rfl, rfl, ?_, ?_, ?_, rfl⟩
  · cases hs : env.sendOk <;> simp [RpcImpl.stop, JsonRpcMetaData.shutdown, hs]
  · cases hs : env.sendOk
    · simp [RpcImpl.getinfo, hs]
    · cases hr : env.getInfoReply with
      | none => simp [RpcImpl.getinfo, hs, hr]
      | some v =>
        obtain ⟨net, height, p⟩ := v
        simp [RpcImpl.getinfo, hs, hr]
  · cases hp : parseStatus status with
    | error e => simp [RpcImpl.listvaults, hp]
    | ok stv =>
      cases ht : decodeOptTxids txids with
      | error e => simp [RpcImpl.listvaults, hp, ht]
      | ok txv =>
        cases hs : env.sendOk
        · simp [RpcImpl.listvaults, hp, ht, hs]
        · cases hr : env.listVaultsReply <;> simp [RpcImpl.listvaults, hp, ht, hs, hr]

/-- Claim C9: neither `getinfo` nor `listvaults` reads the shutdown flag —
with the same worker oracle, inputs and channel counter, their outcome, trace
and resulting counter are identical whether the flag starts true or false
(two-run noninterference in the flag). -/
theorem c9_handlers_ignore_shutdown_flag (env : WorkerEnv) (n : Nat)
    (status : Option String) (txids : Option (List String)) (a b : Bool) :
    ((RpcImpl.getinfo env (JsonRpcMetaData.mk a n)).1
        = (RpcImpl.getinfo env (JsonRpcMetaData.mk b n)).1
      ∧ (RpcImpl.getinfo env (JsonRpcMetaData.mk a n)).2.2
        = (RpcImpl.getinfo env (JsonRpcMetaData.mk b n)).2.2
      ∧ (RpcImpl.getinfo env (JsonRpcMetaData.mk a n)).2.1.nextChan
        = (RpcImpl.getinfo env (JsonRpcMetaData.mk b n)).2.1.nextChan)
    ∧ ((RpcImpl.listvaults env (JsonRpcMetaData.mk a n) status txids).1
        = (RpcImpl.listvaults env (JsonRpcMetaData.mk b n) status txids).1
      ∧ (RpcImpl.listvaults env (JsonRpcMetaData.mk a n) status txids).2.2
        = (RpcImpl.listvaults env (JsonRpcMetaData.mk b n) status txids).2.2
      ∧ (RpcImpl.listvaults env (JsonRpcMetaData.mk a n) status txids).2.1.nextChan
        = (RpcImpl.listvaults env (JsonRpcMetaData.mk b n) status txids).2.1.nextChan) := by
  constructor
  · cases hs : env.sendOk
    · simp [RpcImpl.getinfo, hs]
    · cases hr : env.getInfoReply with
      | none => simp [RpcImpl.getinfo, hs, hr]
      | some v =>
        obtain ⟨net, height, p⟩ := v
        simp [RpcImpl.getinfo, hs, hr]
  · cases hp : parseStatus status with
    | error e => simp [RpcImpl.listvaults, hp]
    | ok stv =>
      cases ht : decodeOptTxids txids with
      | error e => simp [RpcImpl.listvaults, hp, ht]
      | ok txv =>
        cases hs : env.sendOk
        · simp [RpcImpl.listvaults, hp, ht, hs]
        · cases hr : env.listVaultsReply <;> simp [RpcImpl.listvaults, hp, ht, hs, hr]

/-- Claim C10: the status filter is validated before any txid is decoded —
when both the status string and some txid are invalid, the error quotes the
status value, not a txid, and nothing is sent to the worker. -/
theorem c10_status_validated_before_txids (env : WorkerEnv) (meta : JsonRpcMetaData)
    (st : String) (ts : List String) (t : String) (e : FromHexError)
    (hst : VaultStatus.from_str st = none)
    (htx : firstTxidFailure ts = some (t, e)) :
    (RpcImpl.listvaults env meta (some st) (some ts)).1
      = Outcome.err (invalidParams (quoted st ++ " is not a valid vault status"))
    ∧ (RpcImpl.listvaults env meta (some st) (some ts)).2.2 = [] := by
  simp [RpcImpl.listvaults, parseStatus, hst]

/-- Witness for C10: status "bogus" and txid "zz" both invalid — the error
quotes "bogus". -/
theorem c10_witness :
    VaultStatus.from_str "bogus" = none
    ∧ firstTxidFailure ["zz"] = some ("zz", FromHexError.invalidLength 64 2)
    ∧ (RpcImpl.listvaults (WorkerEnv.mk true none none) (JsonRpcMetaData.mk false 0)
        (some "bogus") (some ["zz"])).1
      = Outcome.err (invalidParams (quoted "bogus" ++ " is not a valid vault status")) := by
  exact ⟨rfl, rfl, (c10_status_validated_before_txids (WorkerEnv.mk true none none)
    (JsonRpcMetaData.mk false 0) "bogus" ["zz"] "zz" (FromHexError.invalidLength 64 2)
    rfl rfl).1⟩

end Revaultd
